import Mathlib

/-!
Verification of the scan-orchestration and risk-evaluation core of the
AI-SCAN-DETECTOR browser extension (background.js).

The JavaScript source is shallowly embedded: strings are Lean `String`s
manipulated through their character lists (JavaScript `String.prototype`
operations work on code units; all data handled here is plain text, so
character-list semantics coincide), the flat `chrome.storage.local`
key-value store is a function `String → Option StoredValue`, scores are
`Int` (JavaScript numbers that are always integers here, with a possibly
`undefined` score embedded as `Option Int`), and timestamps are `Nat`
milliseconds (`new Date().getTime()`; `toISOString` round-trips through
`new Date(s).getTime()` at millisecond precision, so the stored timestamp
is embedded directly as the millisecond count).
-/

namespace ScamDetector

/-- Character-list test that `pat` is an initial segment of the second list.
Building block for the embedding of JavaScript `String.prototype.includes`. -/
def strStartsAux : List Char → List Char → Bool
  | [], _ => true
  | _ :: _, [] => false
  | p :: ps, h :: hs => p == h && strStartsAux ps hs

/-- Character-list test that `pat` occurs contiguously somewhere in the
haystack: the recursive sweep over all suffixes. -/
def strFindSub (pat : List Char) : List Char → Bool
  | [] => strStartsAux pat []
  | h :: hs => strStartsAux pat (h :: hs) || strFindSub pat hs

/-- Embedding of JavaScript `hay.includes(pat)` (substring containment). -/
def strIncludes (hay pat : String) : Bool := strFindSub pat.data hay.data

/-- Embedding of JavaScript `s.startsWith(pre)`. -/
def strStarts (s pre : String) : Bool := strStartsAux pre.data s.data

/-- Drop the first `n` characters of a string. -/
def strDropChars (s : String) (n : Nat) : String := String.mk (s.data.drop n)

/-- Embedding of `url.replace(/^https?:\/\//, '')`: the anchored regex removes
one leading `http://` or `https://` scheme prefix if present. -/
def stripScheme (url : String) : String :=
  if strStarts url "https://" then strDropChars url 8
  else if strStarts url "http://" then strDropChars url 7
  else url

/-- Characters before the first slash, for `s.split('/')[0]`. -/
def takeUntilSlash : List Char → List Char
  | [] => []
  | c :: cs => if c == '/' then [] else c :: takeUntilSlash cs

/-- Embedding of `s.split('/')[0]`. -/
def hostPart (s : String) : String := String.mk (takeUntilSlash s.data)

/-- Embedding of `s.replace(/^www\./, '')`. -/
def stripWww (s : String) : String :=
  if strStarts s "www." then strDropChars s 4 else s

/-- Domain extraction performed at the top of `checkSuspiciousDomain`:
strip the scheme, keep the host segment, strip a leading `www.`. -/
def extractDomain (url : String) : String := stripWww (hostPart (stripScheme url))

/-- One entry of the `suspiciousPatterns` table in `checkSuspiciousDomain`. -/
structure SuspiciousEntry where
  pattern : String
  score : Int
  brand : String
  reason : String
deriving DecidableEq

/-- The `suspiciousPatterns` table of `checkSuspiciousDomain`, in source
order (first match wins). -/
def suspiciousPatterns : List SuspiciousEntry :=
  [⟨"rnicrosoft", 95, "Microsoft", "rn冒充 m (rn looks like m)"⟩,
   ⟨"micr0soft", 90, "Microsoft", "Zero冒充 o (0 looks like o)"⟩,
   ⟨"micros0ft", 90, "Microsoft", "Zero冒充 o (0 looks like o)"⟩,
   ⟨"mlcrosoft", 85, "Microsoft", "l冒充 i (l looks like i)"⟩,
   ⟨"rnicro", 85, "Microsoft", "rn冒充 m"⟩,
   ⟨"g00gle", 95, "Google", "Zeros冒充 oo (00 looks like oo)"⟩,
   ⟨"go0gle", 90, "Google", "Zero冒充 o (0 looks like o)"⟩,
   ⟨"g0ogle", 90, "Google", "Zero冒充 o (0 looks like o)"⟩,
   ⟨"googl", 70, "Google", "Missing letter"⟩,
   ⟨"paypa1", 95, "PayPal", "Number 1冒充 l (1 looks like l)"⟩,
   ⟨"paypai", 90, "PayPal", "i冒充 l (i looks like l)"⟩,
   ⟨"paypal", 0, "PayPal", "Legitimate"⟩,
   ⟨"faceb00k", 95, "Facebook", "Zeros冒充 oo (00 looks like oo)"⟩,
   ⟨"faceb0ok", 90, "Facebook", "Zero冒充 o (0 looks like o)"⟩,
   ⟨"face-book", 85, "Facebook", "Hyphenated"⟩,
   ⟨"amaz0n", 95, "Amazon", "Zero冒充 o (0 looks like o)"⟩,
   ⟨"amazn", 80, "Amazon", "Missing o"⟩,
   ⟨"arnazon", 90, "Amazon", "rn冒充 m"⟩,
   ⟨"app1e", 95, "Apple", "Number 1冒充 l (1 looks like l)"⟩,
   ⟨"appple", 85, "Apple", "Double p冒充"⟩,
   ⟨"aple", 70, "Apple", "Missing p"⟩,
   ⟨"netfl1x", 95, "Netflix", "Number 1冒充 i (1 looks like i)"⟩,
   ⟨"netfllx", 85, "Netflix", "Double l冒充"⟩,
   ⟨"chase", 0, "Chase", "Legitimate"⟩,
   ⟨"chase-bank", 75, "Chase", "Hyphenated"⟩,
   ⟨"instagrarn", 90, "Instagram", "rn冒充 m"⟩,
   ⟨"linkedln", 90, "LinkedIn", "ln冒充 in"⟩,
   ⟨"tw1tter", 90, "Twitter", "Number 1冒充 i"⟩,
   ⟨"twltter", 85, "Twitter", "l冒充 i"⟩]

/-- The brand list of the number-substitution pass in `checkSuspiciousDomain`. -/
def brands : List String :=
  ["microsoft", "google", "paypal", "facebook", "amazon", "apple", "netflix"]

/-- Result of `checkSuspiciousDomain`. The source returns either the object
`\x7b suspicious: false \x7d` or an object with `suspicious: true`, a score,
a `risk_level` string and a findings array whose first line names the
impersonated brand; the brand is carried explicitly here alongside the
findings built from it. -/
inductive DomainCheck where
  | safe : DomainCheck
  | flagged (score : Int) (risk_level : String) (brand : String)
      (findings : List String) : DomainCheck
deriving DecidableEq

/-- The `suspicious` field of the returned object. -/
def DomainCheck.suspicious : DomainCheck → Bool
  | .safe => false
  | .flagged _ _ _ _ => true

/-- The brand attributed by a suspicious result, if any. -/
def DomainCheck.brandOf : DomainCheck → Option String
  | .safe => none
  | .flagged _ _ b _ => some b

/-- The `risk_level` string computed for an exact table match:
`item.score >= 70 ? HIGH : MEDIUM`. -/
def riskLabelFor (score : Int) : String :=
  if 70 ≤ score then "🔴 HIGH RISK" else "🟡 MEDIUM RISK"

/-- The findings array built for an exact table match. -/
def matchFindings (domain : String) (e : SuspiciousEntry) : List String :=
  ["⚠️ Domain \x27" ++ domain ++ "\x27 impersonates " ++ e.brand,
   "⚠️ " ++ e.reason,
   "⚠️ Site appears down but domain is suspicious"]

/-- The findings array built for a number-substitution hit. -/
def substitutionFindings (domain brand : String) : List String :=
  ["⚠️ Domain \x27" ++ domain ++ "\x27 uses number substitution to mimic \x27"
      ++ brand ++ "\x27",
   "⚠️ Site appears down but domain is clearly suspicious"]

/-- The per-character digit-to-letter map of the normalization pass
(`0→o, 1→l, 3→e, 4→a, 5→s, 7→t`). -/
def normChar (c : Char) : Char :=
  if c == '0' then 'o'
  else if c == '1' then 'l'
  else if c == '3' then 'e'
  else if c == '4' then 'a'
  else if c == '5' then 's'
  else if c == '7' then 't'
  else c

/-- The chained global `replace` calls of the normalization pass. The six
replaced characters are distinct and none of the replacement letters is a
digit, so the sequential replaces equal one simultaneous character map. -/
def normalizeDigits (s : String) : String := String.mk (s.data.map normChar)

/-- Embedding of `/\d/.test(domain)`. -/
def hasDigit (s : String) : Bool := s.data.any Char.isDigit

/-- Embedding of `checkSuspiciousDomain` (background.js): extract the domain,
scan the pattern table first-match-wins (a score-0 entry short-circuits to
not-suspicious), otherwise, when the domain contains a digit, run the
digit-normalization pass against the brand list. The source's `catch`
branch (returning not-suspicious) is unreachable here because every
embedded operation is total. -/
def checkSuspiciousDomain (url : String) : DomainCheck :=
  let domain := extractDomain url
  match suspiciousPatterns.find? (fun e => strIncludes domain e.pattern) with
  | some e =>
      if e.score = 0 then DomainCheck.safe
      else DomainCheck.flagged e.score (riskLabelFor e.score) e.brand
            (matchFindings domain e)
  | none =>
      if hasDigit domain then
        match brands.find?
            (fun b => strIncludes (normalizeDigits domain) b
                && !(strIncludes domain b)) with
        | some b =>
            DomainCheck.flagged 85 "🔴 HIGH RISK" b
              (substitutionFindings domain b)
        | none => DomainCheck.safe
      else DomainCheck.safe

/-- A scan result as handled by background.js: loose JSON whose fields may be
absent (`undefined`), embedded as `Option`s. The heuristic always fills all
three fields; a body parsed from the scoring service may omit any of them. -/
structure ScanResult where
  score : Option Int
  risk_level : Option String
  findings : Option (List String)
deriving DecidableEq

/-- One entry of `settings.scanHistory` as pushed by `storeScanResult`. -/
structure HistoryEntry where
  url : String
  score : Int
  risk_level : Option String
  timestamp : Nat
deriving DecidableEq

/-- The singleton `lastScan` record written by `storeScanResult`. -/
structure LastScan where
  tabId : Nat
  url : String
  result : ScanResult
  timestamp : Nat
deriving DecidableEq

/-- The process-wide `settings` object (defaults merged with storage). -/
structure Settings where
  autoScan : Bool
  showWarnings : Bool
  scanHistory : List HistoryEntry
deriving DecidableEq

/-- A value held by the flat `chrome.storage.local` key-value store. -/
inductive StoredValue where
  | scanV (r : ScanResult)
  | lastScanV (l : LastScan)
  | settingsV (s : Settings)
deriving DecidableEq

/-- Background-script state: the flat persistent store plus the in-memory
global `settings` variable. -/
structure BgState where
  store : String → Option StoredValue
  settings : Settings

/-- State at process start: empty storage, default settings. -/
def initState : BgState :=
  { store := fun _ => none
    settings := { autoScan := true, showWarnings := true, scanHistory := [] } }

/-- The storage key `scan_<tabId>` (template string over the integer tab id). -/
def scanKey (tabId : Nat) : String := "scan_" ++ toString tabId

/-- The storage key `scan_<url>` of the URL-keyed mirror entry. -/
def urlKey (url : String) : String := "scan_" ++ url

/-- Embedding of `clearTabCache`: `chrome.storage.local.remove(["scan_" + tabId])`. -/
def clearTabCache (tabId : Nat) (s : BgState) : BgState :=
  { s with store := fun k => if k = scanKey tabId then none else s.store k }

/-- Embedding of `storeScanResult`: one `chrome.storage.local.set` writing the
per-tab entry, the URL-keyed mirror and the `lastScan` pointer, then (in the
completion callback, only when `result.score` is defined) an unshift of a
history entry, a pop past 20 entries, and a write-back of `settings`. -/
def storeScanResult (tabId : Nat) (url : String) (result : ScanResult)
    (now : Nat) (s : BgState) : BgState :=
  let store1 : String → Option StoredValue := fun k =>
    if k = scanKey tabId then some (.scanV result)
    else if k = urlKey url then some (.scanV result)
    else if k = "lastScan" then some (.lastScanV ⟨tabId, url, result, now⟩)
    else s.store k
  match result.score with
  | some sc =>
      let h2 : List HistoryEntry :=
        ⟨url, sc, result.risk_level, now⟩ :: s.settings.scanHistory
      let newHist := if 20 < h2.length then h2.dropLast else h2
      let newSettings := { s.settings with scanHistory := newHist }
      { store := fun k =>
          if k = "settings" then some (.settingsV newSettings) else store1 k
        settings := newSettings }
  | none => { store := store1, settings := s.settings }

/-- JavaScript `x >= n` where `x` may be `undefined` (`undefined >= n` is
`false`, via `NaN`). -/
def jsGE (x : Option Int) (n : Int) : Bool :=
  match x with
  | some v => n ≤ v
  | none => false

/-- The icon configuration of `CONFIG.icons`. -/
structure IconSet where
  safe : String
  warning : String
  danger : String

/-- The `CONFIG` constant of background.js. -/
structure ConfigT where
  apiUrl : String
  healthUrl : String
  icons : IconSet

/-- The `CONFIG` constant of background.js. -/
def CONFIG : ConfigT :=
  { apiUrl := "http://localhost:5000/check-url"
    healthUrl := "http://localhost:5000/health"
    icons :=
      { safe := "icons/safe-one.png"
        warning := "icons/yellow-alert.png"
        danger := "icons/alertt.png" } }

/-- Embedding of `updateIconForScore`: the icon path chosen for a score
(possibly `undefined`, in which case both comparisons are false). -/
def updateIconForScore (score : Option Int) : String :=
  if jsGE score 70 then CONFIG.icons.danger
  else if jsGE score 40 then CONFIG.icons.warning
  else CONFIG.icons.safe

/-- The freshness test of the `getCurrentScan` handler: a per-tab entry
exists, the `lastScan` pointer names this tab, and the scan is younger than
30000 ms. -/
def isFresh (s : BgState) (tabId : Nat) (now : Nat) : Bool :=
  match s.store (scanKey tabId), s.store "lastScan" with
  | some _, some (.lastScanV ls) =>
      ls.tabId == tabId && decide (now - ls.timestamp < 30000)
  | _, _ => false

/-- Behaviour of the external risk-scoring service on one `fetch`, an input
of the evaluator: the transport fails or times out, the response is non-2xx
with the given status, or it is 2xx with a body that parses to a result
(`none` = malformed JSON). -/
inductive ApiResponse where
  | transportError : ApiResponse
  | httpError (status : Nat) : ApiResponse
  | success (body : Option ScanResult) : ApiResponse

/-- Outcome of one `scanUrl` invocation: normal completion with the result
that was stored, or the caught error message of the failure path. -/
inductive ScanOutcome where
  | completed (result : ScanResult)
  | failed (msg : String)
deriving DecidableEq

/-- Observable UI side effects of one `scanUrl` invocation. -/
structure ScanEffects where
  outcome : ScanOutcome
  finalIcon : String
  bannerShown : Bool
  notified : Bool
deriving DecidableEq

/-- Embedding of `scanUrl` (background.js): clear the per-tab cache, set the
neutral icon, call the service; on a non-2xx status fall back to
`checkSuspiciousDomain` (storing a synthesized result when suspicious,
otherwise throwing `API error: <status>`); on a 2xx response store the parsed
body; on any thrown error the `catch` resets the icon to the neutral/safe
state and stops. The final icon, banner decision and popup notification are
returned as effects. -/
def scanUrl (url : String) (tabId : Nat) (resp : ApiResponse) (now : Nat)
    (s : BgState) : BgState × ScanEffects :=
  let s1 := clearTabCache tabId s
  match resp with
  | .transportError =>
      (s1, ⟨.failed "API not reachable - Is Flask running?",
            CONFIG.icons.safe, false, false⟩)
  | .httpError status =>
      match checkSuspiciousDomain url with
      | .flagged sc rl _ f =>
          let result : ScanResult := ⟨some sc, some rl, some f⟩
          let s2 := storeScanResult tabId url result now s1
          (s2, ⟨.completed result, updateIconForScore (some sc),
                jsGE (some sc) 70 && s2.settings.showWarnings, true⟩)
      | .safe =>
          (s1, ⟨.failed ("API error: " ++ toString status),
                CONFIG.icons.safe, false, false⟩)
  | .success none =>
      (s1, ⟨.failed "Unexpected token in JSON",
            CONFIG.icons.safe, false, false⟩)
  | .success (some result) =>
      let s2 := storeScanResult tabId url result now s1
      (s2, ⟨.completed result, updateIconForScore result.score,
            jsGE result.score 70 && s2.settings.showWarnings, true⟩)

/-- The three severity bands named by the specification. -/
inductive Severity where
  | SAFE : Severity
  | MEDIUM : Severity
  | HIGH : Severity
deriving DecidableEq

/-- The severity band of a score: the threshold chain of
`updateIconForScore` with the icon paths abstracted to severity levels
(`danger` = HIGH, `warning` = MEDIUM, `safe` = SAFE). -/
def severityOfScore (s : Int) : Severity :=
  if 70 ≤ s then .HIGH else if 40 ≤ s then .MEDIUM else .SAFE

/-- The icon asset associated with each severity band. -/
def iconOfSeverity : Severity → String
  | .HIGH => CONFIG.icons.danger
  | .MEDIUM => CONFIG.icons.warning
  | .SAFE => CONFIG.icons.safe

/-- Arguments of one `storeScanResult` call (the timestamp taken by the call
is made explicit). -/
structure WriteReq where
  tabId : Nat
  url : String
  result : ScanResult
  now : Nat
deriving DecidableEq

/-- Perform a sequence of `storeScanResult` calls in order. -/
def writeAll (ws : List WriteReq) (s : BgState) : BgState :=
  ws.foldl (fun st w => storeScanResult w.tabId w.url w.result w.now st) s

/-- The history entry a write produces (meaningful when the result's score
is defined). -/
def entryOf (w : WriteReq) : HistoryEntry :=
  ⟨w.url, w.result.score.getD 0, w.result.risk_level, w.now⟩

/-- The `chase-bank` entry of the pattern table. -/
def chaseBankEntry : SuspiciousEntry := ⟨"chase-bank", 75, "Chase", "Hyphenated"⟩

/-! Helper lemmas about the flat key namespace and the store operations. -/

theorem scan_prefixed_ne_lastScan (x : String) : ("scan_" ++ x) ≠ "lastScan" := by
  intro h
  have hd : ('s' :: 'c' :: 'a' :: 'n' :: '_' :: x.data)
      = ['l', 'a', 's', 't', 'S', 'c', 'a', 'n'] := congrArg String.data h
  injection hd with h1 _
  exact absurd h1 (by decide)

theorem scan_prefixed_ne_settings (x : String) : ("scan_" ++ x) ≠ "settings" := by
  intro h
  have hd : ('s' :: 'c' :: 'a' :: 'n' :: '_' :: x.data)
      = ['s', 'e', 't', 't', 'i', 'n', 'g', 's'] := congrArg String.data h
  injection hd with _ h2
  injection h2 with h3 _
  exact absurd h3 (by decide)

theorem scanKey_ne_lastScan (tabId : Nat) : scanKey tabId ≠ "lastScan" :=
  scan_prefixed_ne_lastScan _

theorem scanKey_ne_settings (tabId : Nat) : scanKey tabId ≠ "settings" :=
  scan_prefixed_ne_settings _

theorem urlKey_ne_lastScan (url : String) : urlKey url ≠ "lastScan" :=
  scan_prefixed_ne_lastScan _

theorem urlKey_ne_settings (url : String) : urlKey url ≠ "settings" :=
  scan_prefixed_ne_settings _

theorem lastScan_ne_settings : ("lastScan" : String) ≠ "settings" := by decide

/-- `storeScanResult` leaves the boolean settings flags unchanged. -/
theorem storeScanResult_settings_flags (tabId : Nat) (url : String)
    (r : ScanResult) (now : Nat) (s : BgState) :
    (storeScanResult tabId url r now s).settings.showWarnings
        = s.settings.showWarnings
    ∧ (storeScanResult tabId url r now s).settings.autoScan
        = s.settings.autoScan := by
  unfold storeScanResult
  cases r.score <;> simp

/-- After `storeScanResult` the per-tab entry holds the result. -/
theorem storeScanResult_scanKey (tabId : Nat) (url : String) (r : ScanResult)
    (now : Nat) (s : BgState) :
    (storeScanResult tabId url r now s).store (scanKey tabId)
      = some (.scanV r) := by
  unfold storeScanResult
  cases r.score <;>
    simp [scanKey_ne_settings]

/-- After `storeScanResult` the URL-keyed mirror entry holds the result. -/
theorem storeScanResult_urlKey (tabId : Nat) (url : String) (r : ScanResult)
    (now : Nat) (s : BgState) :
    (storeScanResult tabId url r now s).store (urlKey url)
      = some (.scanV r) := by
  unfold storeScanResult
  cases r.score <;>
    · by_cases h : urlKey url = scanKey tabId <;>
        simp [h, urlKey_ne_settings, scanKey_ne_settings]

/-- After `storeScanResult` the `lastScan` pointer records this write. -/
theorem storeScanResult_lastScan (tabId : Nat) (url : String) (r : ScanResult)
    (now : Nat) (s : BgState) :
    (storeScanResult tabId url r now s).store "lastScan"
      = some (.lastScanV ⟨tabId, url, r, now⟩) := by
  unfold storeScanResult
  cases r.score <;>
    simp [lastScan_ne_settings, (scanKey_ne_lastScan tabId).symm,
      (urlKey_ne_lastScan url).symm]

/-- Keys other than the three scan keys and `settings` are untouched. -/
theorem storeScanResult_other_key (tabId : Nat) (url : String) (r : ScanResult)
    (now : Nat) (s : BgState) (k : String) (h1 : k ≠ scanKey tabId)
    (h2 : k ≠ urlKey url) (h3 : k ≠ "lastScan") (h4 : k ≠ "settings") :
    (storeScanResult tabId url r now s).store k = s.store k := by
  unfold storeScanResult
  cases r.score <;> simp [h1, h2, h3, h4]

/-! Substring lemmas and first-match-wins reasoning for the pattern table. -/

theorem strStartsAux_append (a b : List Char) :
    ∀ h : List Char, strStartsAux (a ++ b) h = true → strStartsAux a h = true := by
  induction a with
  | nil => intro h _; rfl
  | cons p ps ih =>
      intro h hpf
      cases h with
      | nil => simp [strStartsAux] at hpf
      | cons c cs =>
          simp only [List.cons_append, strStartsAux, Bool.and_eq_true] at hpf ⊢
          exact ⟨hpf.1, ih cs hpf.2⟩

theorem strFindSub_append (a b : List Char) :
    ∀ hay : List Char, strFindSub (a ++ b) hay = true → strFindSub a hay = true := by
  intro hay
  induction hay with
  | nil =>
      intro h
      exact strStartsAux_append a b [] h
  | cons c cs ih =>
      intro h
      simp only [strFindSub, Bool.or_eq_true] at h ⊢
      rcases h with h | h
      · exact Or.inl (strStartsAux_append a b _ h)
      · exact Or.inr (ih h)

/-- A haystack containing `chase-bank` also contains `chase`. -/
theorem strIncludes_chase_of_chase_bank (d : String) :
    strIncludes d "chase-bank" = true → strIncludes d "chase" = true := by
  intro h
  have h2 : strFindSub ("chase".data ++ "-bank".data) d.data = true := h
  exact strFindSub_append _ _ _ h2

/-- `find?` over an append whose left part already holds a witness of the
predicate returns an element of the left part. -/
theorem find?_mem_of_prior {α : Type} (p : α → Bool) :
    ∀ (l₁ l₂ : List α) (a x : α), a ∈ l₁ → p a = true →
      (l₁ ++ l₂).find? p = some x → x ∈ l₁ := by
  intro l₁
  induction l₁ with
  | nil => intro l₂ a x ha _ _; exact absurd ha (List.not_mem_nil a)
  | cons hd t ih =>
      intro l₂ a x ha hp hf
      rw [List.cons_append] at hf
      by_cases hph : p hd = true
      · rw [List.find?_cons_of_pos _ hph] at hf
        injection hf with h1
        exact h1 ▸ List.mem_cons_self hd t
      · rw [List.find?_cons_of_neg _ (by simpa using hph)] at hf
        rcases List.mem_cons.mp ha with h | hat
        · exact absurd (h ▸ hp) hph
        · exact List.mem_cons_of_mem hd (ih l₂ a x hat hp hf)

/-- Every table entry either is a score-0 legitimate marker or scores at
least 70. -/
theorem table_scores : ∀ e ∈ suspiciousPatterns, e.score = 0 ∨ 70 ≤ e.score := by
  decide

/-- The only Chase-branded entry with a nonzero score is `chase-bank`. -/
theorem table_chase_entries :
    ∀ e ∈ suspiciousPatterns,
      e.brand = "Chase" → e.score ≠ 0 → e = chaseBankEntry := by
  decide

/-- No table entry carries the lowercase brand string `chase`. -/
theorem table_no_lowercase_chase :
    ∀ e ∈ suspiciousPatterns, e.brand ≠ "chase" := by
  decide

/-- The substitution-pass brand list names neither `Chase` nor `chase`. -/
theorem brands_no_chase : ∀ b ∈ brands, b ≠ "Chase" ∧ b ≠ "chase" := by
  decide

/-- The first-match-wins scan never selects the `chase-bank` entry: any
domain containing `chase-bank` also contains `chase`, whose score-0 entry
precedes it in the table. -/
theorem chaseBank_never_found (d : String) :
    suspiciousPatterns.find? (fun e => strIncludes d e.pattern)
      ≠ some chaseBankEntry := by
  intro hf
  have hp : strIncludes d "chase-bank" = true := by
    simpa [chaseBankEntry] using List.find?_some hf
  have hchase : strIncludes d "chase" = true :=
    strIncludes_chase_of_chase_bank d hp
  have hsplit : suspiciousPatterns
      = suspiciousPatterns.take 24 ++ suspiciousPatterns.drop 24 :=
    (List.take_append_drop 24 suspiciousPatterns).symm
  rw [hsplit] at hf
  have hmem : chaseBankEntry ∈ suspiciousPatterns.take 24 :=
    find?_mem_of_prior _ _ _ ⟨"chase", 0, "Chase", "Legitimate"⟩ chaseBankEntry
      (by decide) hchase hf
  exact absurd hmem (by decide)

/-- History update of a write whose result carries a defined score: unshift
one entry, and pop the last entry when the length passes 20. -/
theorem storeScanResult_history_some (tabId : Nat) (url : String)
    (r : ScanResult) (now : Nat) (s : BgState) (sc : Int)
    (h : r.score = some sc) :
    (storeScanResult tabId url r now s).settings.scanHistory
      = ⟨url, sc, r.risk_level, now⟩ ::
          (if 20 ≤ s.settings.scanHistory.length
           then s.settings.scanHistory.dropLast
           else s.settings.scanHistory) := by
  simp only [storeScanResult, h]
  by_cases hl : 20 ≤ s.settings.scanHistory.length
  · rw [if_pos (by simp only [List.length_cons]; omega), if_pos hl]
    cases hh : s.settings.scanHistory with
    | nil => rw [hh] at hl; simp at hl
    | cons x xs => simp [List.dropLast]
  · rw [if_neg (by simp only [List.length_cons]; omega), if_neg hl]

/-- History is untouched by a write whose result has an undefined score. -/
theorem storeScanResult_history_none (tabId : Nat) (url : String)
    (r : ScanResult) (now : Nat) (s : BgState) (h : r.score = none) :
    (storeScanResult tabId url r now s).settings.scanHistory
      = s.settings.scanHistory := by
  simp only [storeScanResult, h]

theorem take_append_take {α : Type} (A B : List α) (n : Nat) :
    (A ++ B.take n).take n = (A ++ B).take n := by
  rw [List.take_append_eq_append_take, List.take_append_eq_append_take,
    List.take_take]
  congr 1
  rw [Nat.min_eq_left (Nat.sub_le _ _)]

theorem cons_take_twenty {α : Type} (e : α) (h : List α) (hl : h.length ≤ 20) :
    (e :: h).take 20 = e :: (if 20 ≤ h.length then h.dropLast else h) := by
  by_cases h20 : 20 ≤ h.length
  · have h20eq : h.length = 20 := le_antisymm hl h20
    rw [if_pos h20, show (20 : Nat) = 19 + 1 from rfl, List.take_succ_cons,
      List.dropLast_eq_take, h20eq]
  · rw [if_neg h20]
    exact List.take_of_length_le (by simp only [List.length_cons]; omega)

/-- Folding defined-score writes over a history of length at most 20 keeps
the most recent 20 produced entries, most-recent-first. -/
theorem writeAll_history (ws : List WriteReq) :
    ∀ s : BgState, (∀ w ∈ ws, w.result.score.isSome = true) →
      s.settings.scanHistory.length ≤ 20 →
      (writeAll ws s).settings.scanHistory
        = ((ws.map entryOf).reverse ++ s.settings.scanHistory).take 20 := by
  induction ws with
  | nil =>
      intro s _ hlen
      simp [writeAll, List.take_of_length_le hlen]
  | cons w ws ih =>
      intro s hdef hlen
      have hw : w.result.score.isSome = true := hdef w (List.mem_cons_self w ws)
      obtain ⟨sc, hsc⟩ := Option.isSome_iff_exists.mp hw
      have hstep : (storeScanResult w.tabId w.url w.result w.now s).settings.scanHistory
          = (entryOf w :: s.settings.scanHistory).take 20 := by
        rw [storeScanResult_history_some w.tabId w.url w.result w.now s sc hsc,
          cons_take_twenty _ _ hlen]
        have : entryOf w = ⟨w.url, sc, w.result.risk_level, w.now⟩ := by
          simp [entryOf, hsc]
        rw [this]
      have hrec := ih (storeScanResult w.tabId w.url w.result w.now s)
        (fun x hx => hdef x (List.mem_cons_of_mem w hx))
        (by rw [hstep]; exact List.length_take_le _ _)
      have hfold : writeAll (w :: ws) s
          = writeAll ws (storeScanResult w.tabId w.url w.result w.now s) := rfl
      rw [hfold, hrec, hstep, take_append_take]
      simp [List.append_assoc]

/-- C1: for every integer score `s`, the severity mapping realised by
`updateIconForScore` yields HIGH iff `s ≥ 70`, MEDIUM iff `40 ≤ s < 70` and
SAFE iff `s < 40` (boundaries 40 and 70 land in the higher band), the icon
chosen is exactly the icon of that severity, and every classification
performed when `checkSuspiciousDomain` constructs a ScanResult is consistent
with this mapping (all flagged scores are ≥ 70 and labelled HIGH). -/
theorem C1_severity_mapping :
    (∀ s : Int, (severityOfScore s = Severity.HIGH ↔ 70 ≤ s)
      ∧ (severityOfScore s = Severity.MEDIUM ↔ 40 ≤ s ∧ s < 70)
      ∧ (severityOfScore s = Severity.SAFE ↔ s < 40))
    ∧ severityOfScore 40 = Severity.MEDIUM
    ∧ severityOfScore 70 = Severity.HIGH
    ∧ (∀ s : Int,
        updateIconForScore (some s) = iconOfSeverity (severityOfScore s))
    ∧ (∀ url sc rl br f,
        checkSuspiciousDomain url = .flagged sc rl br f →
          70 ≤ sc ∧ rl = "🔴 HIGH RISK"
            ∧ severityOfScore sc = Severity.HIGH) := by
  refine ⟨?_, by decide, by decide, ?_, ?_⟩
  · intro s
    unfold severityOfScore
    split_ifs with h1 h2
    all_goals simp_all
    all_goals omega
  · intro s
    unfold updateIconForScore severityOfScore jsGE iconOfSeverity
    by_cases h1 : 70 ≤ s
    · simp [h1]
    · by_cases h2 : 40 ≤ s <;> simp [h1, h2]
  · intro url sc rl br f h
    simp only [checkSuspiciousDomain] at h
    split at h
    · rename_i e heq
      split at h
      · exact absurd h (by simp)
      · rename_i hscore
        injection h with hsc hrl hbr hf
        have hmem := List.mem_of_find?_eq_some heq
        have h70 : 70 ≤ e.score := (table_scores e hmem).resolve_left hscore
        subst hsc hrl
        refine ⟨h70, ?_, ?_⟩
        · unfold riskLabelFor
          rw [if_pos h70]
        · unfold severityOfScore
          rw [if_pos h70]
    · split at h
      · split at h
        · rename_i b heq
          injection h with hsc hrl hbr hf
          subst hsc hrl
          exact ⟨by decide, rfl, by decide⟩
        · exact absurd h (by simp)
      · exact absurd h (by simp)

/-- C1 witness: the theorem applied at score 85 and at the concrete domain
`micr0soft.com`, discharging the flagged-result hypothesis by evaluation. -/
theorem C1_severity_mapping_witness :
    severityOfScore 85 = Severity.HIGH
    ∧ updateIconForScore (some 85) = iconOfSeverity (severityOfScore 85)
    ∧ (70 ≤ (90 : Int) ∧ "🔴 HIGH RISK" = "🔴 HIGH RISK"
        ∧ severityOfScore 90 = Severity.HIGH) :=
  ⟨(C1_severity_mapping.1 85).1.mpr (by decide),
   C1_severity_mapping.2.2.2.1 85,
   C1_severity_mapping.2.2.2.2 "micr0soft.com" 90 "🔴 HIGH RISK" "Microsoft"
     (matchFindings "micr0soft.com"
       ⟨"micr0soft", 90, "Microsoft", "Zero冒充 o (0 looks like o)"⟩)
     (by decide)⟩

/-- C3: the heuristic is a deterministic function of the URL string:
`micr0soft.com` is flagged with score 90 attributing Microsoft;
`paypal.com` hits the score-0 `paypal` entry and short-circuits to
not-suspicious; `g00gle-support.net` is flagged through the exact `g00gle`
table pattern (the table scan fires, so the digit-normalization pass is
never reached); `rnicrosoft-login.com` is flagged with score 95 ≥ 90
through the `rn`-for-`m` confusable entry. -/
theorem C3_heuristic_determinism :
    (checkSuspiciousDomain "micr0soft.com"
      = .flagged 90 "🔴 HIGH RISK" "Microsoft"
          (matchFindings "micr0soft.com"
            ⟨"micr0soft", 90, "Microsoft", "Zero冒充 o (0 looks like o)"⟩))
    ∧ (suspiciousPatterns.find?
          (fun e => strIncludes (extractDomain "paypal.com") e.pattern)
        = some ⟨"paypal", 0, "PayPal", "Legitimate"⟩
      ∧ checkSuspiciousDomain "paypal.com" = .safe)
    ∧ (suspiciousPatterns.find?
          (fun e => strIncludes (extractDomain "g00gle-support.net") e.pattern)
        = some ⟨"g00gle", 95, "Google", "Zeros冒充 oo (00 looks like oo)"⟩
      ∧ checkSuspiciousDomain "g00gle-support.net"
        = .flagged 95 "🔴 HIGH RISK" "Google"
            (matchFindings "g00gle-support.net"
              ⟨"g00gle", 95, "Google", "Zeros冒充 oo (00 looks like oo)"⟩))
    ∧ (checkSuspiciousDomain "rnicrosoft-login.com"
        = .flagged 95 "🔴 HIGH RISK" "Microsoft"
            (matchFindings "rnicrosoft-login.com"
              ⟨"rnicrosoft", 95, "Microsoft", "rn冒充 m (rn looks like m)"⟩)
      ∧ (90 : Int) ≤ 95) := by
  exact ⟨by decide, ⟨by decide, by decide⟩, ⟨by decide, by decide⟩,
    by decide, by decide⟩

/-- C10: no input URL ever yields a suspicious result attributing the Chase
brand: the `chase-bank` table entry is unreachable (any domain containing
`chase-bank` also contains `chase`, whose score-0 entry precedes it in the
first-match-wins table), and `chase` is absent from the brand list of the
digit-normalization pass. -/
theorem C10_chase_unreachable :
    (∀ url, (checkSuspiciousDomain url).brandOf ≠ some "Chase"
      ∧ (checkSuspiciousDomain url).brandOf ≠ some "chase")
    ∧ (∀ d, suspiciousPatterns.find? (fun e => strIncludes d e.pattern)
        ≠ some chaseBankEntry)
    ∧ "chase" ∉ brands := by
  refine ⟨?_, chaseBank_never_found, by decide⟩
  intro url
  simp only [checkSuspiciousDomain]
  split
  · rename_i e heq
    split
    · simp [DomainCheck.brandOf]
    · rename_i hscore
      simp only [DomainCheck.brandOf]
      have hmem := List.mem_of_find?_eq_some heq
      constructor
      · intro hb
        exact chaseBank_never_found _
          (table_chase_entries e hmem (Option.some.inj hb) hscore ▸ heq)
      · intro hb
        exact table_no_lowercase_chase e hmem (Option.some.inj hb)
  · split
    · split
      · rename_i b heq
        have hmem := List.mem_of_find?_eq_some heq
        simp only [DomainCheck.brandOf]
        constructor
        · intro hb
          exact (brands_no_chase b hmem).1 (Option.some.inj hb)
        · intro hb
          exact (brands_no_chase b hmem).2 (Option.some.inj hb)
      · simp [DomainCheck.brandOf]
    · simp [DomainCheck.brandOf]

/-- C4: the normalized-substitution pass of `checkSuspiciousDomain` runs only
when no exact table pattern matched and the domain contains a digit; it is
the character map 0→o, 1→l, 3→e, 4→a, 5→s, 7→t (all other characters fixed),
flags the domain iff the normalized domain contains a tracked brand that the
raw domain does not contain verbatim, and every hit scores exactly 85 with
the HIGH risk label. -/
theorem C4_normalization_pass :
    (∀ url, suspiciousPatterns.find?
          (fun e => strIncludes (extractDomain url) e.pattern) = none →
        hasDigit (extractDomain url) = false →
        checkSuspiciousDomain url = .safe)
    ∧ (∀ url, suspiciousPatterns.find?
          (fun e => strIncludes (extractDomain url) e.pattern) = none →
        hasDigit (extractDomain url) = true →
        ((checkSuspiciousDomain url).suspicious = true ↔
          ∃ b ∈ brands,
            strIncludes (normalizeDigits (extractDomain url)) b = true
            ∧ strIncludes (extractDomain url) b = false)
        ∧ (∀ sc rl br f, checkSuspiciousDomain url = .flagged sc rl br f →
            sc = 85 ∧ rl = "🔴 HIGH RISK"))
    ∧ (normChar '0' = 'o' ∧ normChar '1' = 'l' ∧ normChar '3' = 'e'
        ∧ normChar '4' = 'a' ∧ normChar '5' = 's' ∧ normChar '7' = 't')
    ∧ (∀ c : Char, c ∉ (['0', '1', '3', '4', '5', '7'] : List Char) →
        normChar c = c) := by
  refine ⟨?_, ?_, by decide, ?_⟩
  · intro url h1 h2
    simp [checkSuspiciousDomain, h1, h2]
  · intro url h1 h2
    constructor
    · simp only [checkSuspiciousDomain, h1, h2, if_true]
      cases hfb : brands.find?
          (fun b => strIncludes (normalizeDigits (extractDomain url)) b
            && !(strIncludes (extractDomain url) b)) with
      | some b =>
          simp only [DomainCheck.suspicious, true_iff]
          have hmem := List.mem_of_find?_eq_some hfb
          have hp := List.find?_some hfb
          simp only [Bool.and_eq_true, Bool.not_eq_true'] at hp
          exact ⟨b, hmem, hp.1, hp.2⟩
      | none =>
          simp only [DomainCheck.suspicious, Bool.false_eq_true, false_iff]
          rintro ⟨b, hb, h3, h4⟩
          have := List.find?_eq_none.mp hfb b hb
          simp only [Bool.and_eq_true, Bool.not_eq_true'] at this
          exact this ⟨h3, h4⟩
    · intro sc rl br f h
      simp only [checkSuspiciousDomain, h1, h2, if_true] at h
      cases hfb : brands.find?
          (fun b => strIncludes (normalizeDigits (extractDomain url)) b
            && !(strIncludes (extractDomain url) b)) with
      | some b =>
          rw [hfb] at h
          injection h with hsc hrl _ _
          exact ⟨hsc.symm, hrl.symm⟩
      | none =>
          rw [hfb] at h
          exact absurd h (by simp)
  · intro c hc
    simp only [List.mem_cons, not_or, List.not_mem_nil, not_false_iff,
      and_true] at hc
    obtain ⟨h0, h1, h3, h4, h5, h7⟩ := hc
    simp [normChar, beq_iff_eq, h0, h1, h3, h4, h5, h7]

/-- C4 witness: `payp41.com` has no exact table match, contains digits, and
is flagged through the substitution pass at score 85; `example.org` has no
digit and is not flagged. -/
theorem C4_normalization_pass_witness :
    (checkSuspiciousDomain "payp41.com").suspicious = true
    ∧ checkSuspiciousDomain "example.org" = .safe :=
  ⟨((C4_normalization_pass.2.1 "payp41.com" (by decide) (by decide)).1).mpr
      ⟨"paypal", by decide, by decide, by decide⟩,
   C4_normalization_pass.1 "example.org" (by decide) (by decide)⟩

/-- C5: starting from the empty history, after more than 20 writes whose
results all carry a defined score, `scanHistory` is exactly the 20 most
recent entries most-recent-first (length exactly 20); each defined-score
write prepends one entry, popping the oldest (tail) entry when the length
would pass 20; a write with an undefined score appends nothing. -/
theorem C5_history_bound :
    (∀ ws : List WriteReq, (∀ w ∈ ws, w.result.score.isSome = true) →
      20 < ws.length →
      (writeAll ws initState).settings.scanHistory
          = ((ws.map entryOf).reverse).take 20
      ∧ (writeAll ws initState).settings.scanHistory.length = 20)
    ∧ (∀ tabId url r now s sc, r.score = some sc →
        (storeScanResult tabId url r now s).settings.scanHistory
          = ⟨url, sc, r.risk_level, now⟩ ::
              (if 20 ≤ s.settings.scanHistory.length
               then s.settings.scanHistory.dropLast
               else s.settings.scanHistory))
    ∧ (∀ tabId url r now s, r.score = none →
        (storeScanResult tabId url r now s).settings.scanHistory
          = s.settings.scanHistory) := by
  refine ⟨?_, storeScanResult_history_some, storeScanResult_history_none⟩
  intro ws hdef hlen
  have h := writeAll_history ws initState hdef (by simp [initState])
  rw [show initState.settings.scanHistory = [] from rfl, List.append_nil] at h
  refine ⟨h, ?_⟩
  rw [h]
  simp only [List.length_take, List.length_reverse, List.length_map]
  omega

/-- C5 witness: 21 defined-score writes from the initial state leave a
history of length exactly 20. -/
theorem C5_history_bound_witness :
    (writeAll ((List.range 21).map fun i =>
        ⟨1, "u", ⟨some 50, none, none⟩, i⟩) initState).settings.scanHistory.length
      = 20 :=
  (C5_history_bound.1 _ (by decide) (by decide)).2

/-- C6: a cached record is fresh for `getCurrentScan` iff the per-tab entry
exists, the global `lastScan` pointer names this tab and the elapsed time is
strictly under 30000 ms; a record written at time T is fresh at T+29s and
stale at T+31s for the same tab, and a record whose pointer names tab A is
never fresh for a different tab B. -/
theorem C6_freshness :
    (∀ s tabId now, isFresh s tabId now = true ↔
      ((s.store (scanKey tabId)).isSome = true
        ∧ ∃ ls, s.store "lastScan" = some (.lastScanV ls)
            ∧ ls.tabId = tabId ∧ now - ls.timestamp < 30000))
    ∧ (∀ s tabId url r T,
        isFresh (storeScanResult tabId url r T s) tabId (T + 29000) = true)
    ∧ (∀ s tabId url r T,
        isFresh (storeScanResult tabId url r T s) tabId (T + 31000) = false)
    ∧ (∀ s A B now ls, s.store "lastScan" = some (.lastScanV ls) →
        ls.tabId = A → B ≠ A → isFresh s B now = false) := by
  refine ⟨?_, ?_, ?_, ?_⟩
  · intro s t now
    unfold isFresh
    cases h1 : s.store (scanKey t) with
    | none => simp
    | some v =>
        cases h2 : s.store "lastScan" with
        | none => simp
        | some w =>
            cases w with
            | scanV r => simp
            | settingsV st => simp
            | lastScanV ls => simp [Bool.and_eq_true, beq_iff_eq]
  · intro s t url r T
    unfold isFresh
    rw [storeScanResult_scanKey, storeScanResult_lastScan]
    simp
  · intro s t url r T
    unfold isFresh
    rw [storeScanResult_scanKey, storeScanResult_lastScan]
    simp
  · intro s A B now ls h hA hBA
    unfold isFresh
    cases h1 : s.store (scanKey B) with
    | none => rfl
    | some v =>
        rw [h]
        simp only [Bool.and_eq_false_iff]  -- may adjust
        left
        rw [hA]
        exact beq_eq_false_iff_ne.mpr (fun hh => hBA hh.symm)

/-- C6 witness: a record stored for tab 3 at T = 1000 ms is fresh for tab 3
at 30000 ms (29 s later), stale at 32000 ms (31 s later), and never fresh
for tab 4. -/
theorem C6_freshness_witness :
    isFresh (storeScanResult 3 "u" ⟨some 50, none, none⟩ 1000 initState) 3 30000
      = true
    ∧ isFresh (storeScanResult 3 "u" ⟨some 50, none, none⟩ 1000 initState) 3 32000
      = false
    ∧ isFresh (storeScanResult 3 "u" ⟨some 50, none, none⟩ 1000 initState) 4 5000
      = false :=
  ⟨C6_freshness.2.1 initState 3 "u" ⟨some 50, none, none⟩ 1000,
   C6_freshness.2.2.1 initState 3 "u" ⟨some 50, none, none⟩ 1000,
   C6_freshness.2.2.2 _ 3 4 5000 ⟨3, "u", ⟨some 50, none, none⟩, 1000⟩
     (storeScanResult_lastScan 3 "u" ⟨some 50, none, none⟩ 1000 initState)
     rfl (by decide)⟩

/-- C2: when the service answers with a non-2xx status, the evaluator falls
back to the domain heuristic: if the heuristic flags the domain, the scan
completes with a ScanResult synthesized from the heuristic's score, risk
level and findings, that result is stored under the per-tab key, the icon is
driven by the score, and a banner is requested iff the score is ≥ 70 and
warnings are enabled; if the heuristic finds nothing, the scan fails with an
error carrying the HTTP status and no result is stored. -/
theorem C2_dead_site_fallback (url : String) (tabId status now : Nat)
    (s : BgState) :
    (∀ sc rl br f, checkSuspiciousDomain url = .flagged sc rl br f →
      scanUrl url tabId (.httpError status) now s
        = (storeScanResult tabId url ⟨some sc, some rl, some f⟩ now
            (clearTabCache tabId s),
           ⟨.completed ⟨some sc, some rl, some f⟩, updateIconForScore (some sc),
            jsGE (some sc) 70 && s.settings.showWarnings, true⟩)
      ∧ (scanUrl url tabId (.httpError status) now s).1.store (scanKey tabId)
          = some (.scanV ⟨some sc, some rl, some f⟩))
    ∧ (checkSuspiciousDomain url = .safe →
      scanUrl url tabId (.httpError status) now s
        = (clearTabCache tabId s,
           ⟨.failed ("API error: " ++ toString status),
            CONFIG.icons.safe, false, false⟩)
      ∧ (scanUrl url tabId (.httpError status) now s).1.store (scanKey tabId)
          = none) := by
  constructor
  · intro sc rl br f h
    constructor
    · simp only [scanUrl, h]
      rw [(storeScanResult_settings_flags tabId url
        ⟨some sc, some rl, some f⟩ now (clearTabCache tabId s)).1]
      rfl
    · simp only [scanUrl, h]
      exact storeScanResult_scanKey tabId url ⟨some sc, some rl, some f⟩ now
        (clearTabCache tabId s)
  · intro h
    constructor
    · simp only [scanUrl, h]
    · simp only [scanUrl, h]
      simp [clearTabCache]

/-- C2 witness: on a 502 with the brand-matching domain `rnicrosoft.com` the
synthesized result is stored; on a 502 with the clean domain `example.com`
the scan fails with the status and nothing is stored. -/
theorem C2_dead_site_fallback_witness :
    (scanUrl "rnicrosoft.com" 7 (.httpError 502) 0 initState).1.store (scanKey 7)
      = some (.scanV ⟨some 95, some "🔴 HIGH RISK",
          some (matchFindings "rnicrosoft.com"
            ⟨"rnicrosoft", 95, "Microsoft", "rn冒充 m (rn looks like m)"⟩)⟩)
    ∧ (scanUrl "example.com" 7 (.httpError 502) 0 initState).1.store (scanKey 7)
        = none
    ∧ (scanUrl "example.com" 7 (.httpError 502) 0 initState).2.outcome
        = .failed ("API error: " ++ toString 502) := by
  have h1 := (C2_dead_site_fallback "rnicrosoft.com" 7 502 0 initState).1 95
    "🔴 HIGH RISK" "Microsoft"
    (matchFindings "rnicrosoft.com"
      ⟨"rnicrosoft", 95, "Microsoft", "rn冒充 m (rn looks like m)"⟩)
    (by decide)
  have h2 := (C2_dead_site_fallback "example.com" 7 502 0 initState).2 (by decide)
  exact ⟨h1.2, h2.2, by rw [h2.1]⟩

/-- C7: whenever a scan fails (transport failure/timeout, non-2xx status
with a non-suspicious domain, or malformed success body), the final state is
exactly the state after the initial cache invalidation: the icon ends in the
neutral/safe state, no banner and no completion notification are issued, the
per-tab entry is absent (removed at scan start, rewritten only on success),
and a freshness query for that tab at any time fails — so `getCurrentScan`
cannot serve a previous scan's data. -/
theorem C7_failure_clean (url : String) (tabId : Nat) (resp : ApiResponse)
    (now : Nat) (s : BgState) (msg : String)
    (hfail : (scanUrl url tabId resp now s).2.outcome = .failed msg) :
    (scanUrl url tabId resp now s).1 = clearTabCache tabId s
    ∧ (scanUrl url tabId resp now s).1.store (scanKey tabId) = none
    ∧ (scanUrl url tabId resp now s).2.finalIcon = CONFIG.icons.safe
    ∧ (scanUrl url tabId resp now s).2.bannerShown = false
    ∧ (scanUrl url tabId resp now s).2.notified = false
    ∧ (∀ t, isFresh (scanUrl url tabId resp now s).1 tabId t = false) := by
  cases resp with
  | transportError =>
      refine ⟨rfl, ?_, rfl, rfl, rfl, ?_⟩
      · simp [scanUrl, clearTabCache]
      · intro t
        simp [scanUrl, isFresh, clearTabCache]
  | httpError status =>
      cases hc : checkSuspiciousDomain url with
      | flagged sc rl br f =>
          exfalso
          simp [scanUrl, hc] at hfail
      | safe =>
          refine ⟨?_, ?_, ?_, ?_, ?_, ?_⟩ <;>
            simp [scanUrl, hc, clearTabCache, isFresh]
  | success body =>
      cases body with
      | none =>
          refine ⟨?_, ?_, ?_, ?_, ?_, ?_⟩ <;>
            simp [scanUrl, clearTabCache, isFresh]
      | some r =>
          exfalso
          simp [scanUrl] at hfail

/-- C7 witness: a transport failure on tab 7 leaves no per-tab entry and the
neutral icon. -/
theorem C7_failure_clean_witness :
    (scanUrl "http://example.com" 7 .transportError 0 initState).1.store
        (scanKey 7) = none
    ∧ (scanUrl "http://example.com" 7 .transportError 0 initState).2.finalIcon
        = CONFIG.icons.safe := by
  have h := C7_failure_clean "http://example.com" 7 .transportError 0 initState
    "API not reachable - Is Flask running?" (by decide)
  exact ⟨h.2.1, h.2.2.1⟩

/-- C8: two successive `storeScanResult` calls with identical arguments
leave the per-tab entry, the URL-keyed mirror entry and the `lastScan`
pointer unchanged after the second call, while the second call appends
exactly one more history entry when the score is defined (history is an
append-per-call log) and nothing when the score is undefined. -/
theorem C8_write_idempotent_except_history (tabId : Nat) (url : String)
    (r : ScanResult) (now : Nat) (s : BgState) :
    (storeScanResult tabId url r now
        (storeScanResult tabId url r now s)).store (scanKey tabId)
      = (storeScanResult tabId url r now s).store (scanKey tabId)
    ∧ (storeScanResult tabId url r now
        (storeScanResult tabId url r now s)).store (urlKey url)
      = (storeScanResult tabId url r now s).store (urlKey url)
    ∧ (storeScanResult tabId url r now
        (storeScanResult tabId url r now s)).store "lastScan"
      = (storeScanResult tabId url r now s).store "lastScan"
    ∧ (∀ sc, r.score = some sc →
        (storeScanResult tabId url r now
            (storeScanResult tabId url r now s)).settings.scanHistory
          = (⟨url, sc, r.risk_level, now⟩ : HistoryEntry) ::
              (if 20 ≤ (storeScanResult tabId url r now s).settings.scanHistory.length
               then (storeScanResult tabId url r now s).settings.scanHistory.dropLast
               else (storeScanResult tabId url r now s).settings.scanHistory)
        ∧ (storeScanResult tabId url r now
            (storeScanResult tabId url r now s)).settings.scanHistory.head?
          = some ⟨url, sc, r.risk_level, now⟩)
    ∧ (r.score = none →
        (storeScanResult tabId url r now
            (storeScanResult tabId url r now s)).settings.scanHistory
          = (storeScanResult tabId url r now s).settings.scanHistory) := by
  refine ⟨?_, ?_, ?_, ?_, ?_⟩
  · exact (storeScanResult_scanKey tabId url r now _).trans
      (storeScanResult_scanKey tabId url r now s).symm
  · exact (storeScanResult_urlKey tabId url r now _).trans
      (storeScanResult_urlKey tabId url r now s).symm
  · exact (storeScanResult_lastScan tabId url r now _).trans
      (storeScanResult_lastScan tabId url r now s).symm
  · intro sc hsc
    constructor
    · exact storeScanResult_history_some tabId url r now _ sc hsc
    · rw [storeScanResult_history_some tabId url r now _ sc hsc]
      rfl
  · intro hsc
    exact storeScanResult_history_none tabId url r now _ hsc

/-- C8 witness: two identical writes from the initial state agree on the
per-tab entry and produce exactly two (identical) history entries. -/
theorem C8_write_idempotent_except_history_witness :
    (storeScanResult 1 "u" ⟨some 50, none, none⟩ 0
        (storeScanResult 1 "u" ⟨some 50, none, none⟩ 0 initState)).store
        (scanKey 1)
      = (storeScanResult 1 "u" ⟨some 50, none, none⟩ 0 initState).store
        (scanKey 1)
    ∧ (storeScanResult 1 "u" ⟨some 50, none, none⟩ 0
        (storeScanResult 1 "u" ⟨some 50, none, none⟩ 0 initState)).settings.scanHistory
      = [⟨"u", 50, none, 0⟩, ⟨"u", 50, none, 0⟩] := by
  have h := C8_write_idempotent_except_history 1 "u" ⟨some 50, none, none⟩ 0
    initState
  refine ⟨h.1, ?_⟩
  rw [(h.2.2.2.1 50 rfl).1]
  decide

/-- C9 counterexample: the per-tab keys and the URL-keyed mirror share one
flat storage namespace, so for the URL `"5"` scanned on tab 5 the mirror
entry lives under the same key `scan_5` and `clearTabCache 5` removes it —
refuting the claim that invalidation leaves every URL-keyed mirror entry
unchanged. -/
theorem C9_invalidate_counterexample :
    (storeScanResult 5 "5" ⟨some 50, none, none⟩ 0 initState).store (urlKey "5")
      = some (.scanV ⟨some 50, none, none⟩)
    ∧ (clearTabCache 5
        (storeScanResult 5 "5" ⟨some 50, none, none⟩ 0 initState)).store
        (urlKey "5") = none
    ∧ urlKey "5" = scanKey 5 :=
  ⟨by decide, by decide, by decide⟩

/-- C9 (amended): `clearTabCache tabId` removes exactly the storage key
`scan_<tabId>` and leaves every other storage key — in particular the
`lastScan` pointer, the persisted settings, and every per-tab or URL-keyed
entry whose key differs from `scan_<tabId>` — as well as the in-memory
settings and `scanHistory` unchanged; a URL-keyed mirror entry whose URL is
the decimal string of `tabId` occupies that same key and is removed with
it. -/
theorem C9_invalidate_frame (tabId : Nat) (s : BgState) :
    (clearTabCache tabId s).store (scanKey tabId) = none
    ∧ (∀ k, k ≠ scanKey tabId → (clearTabCache tabId s).store k = s.store k)
    ∧ (clearTabCache tabId s).store "lastScan" = s.store "lastScan"
    ∧ (clearTabCache tabId s).settings = s.settings
    ∧ (clearTabCache tabId s).settings.scanHistory
        = s.settings.scanHistory := by
  refine ⟨?_, ?_, ?_, rfl, rfl⟩
  · simp [clearTabCache]
  · intro k hk
    simp [clearTabCache, hk]
  · simp only [clearTabCache]
    rw [if_neg (Ne.symm (scanKey_ne_lastScan tabId))]

/-- C9 witness: invalidating tab 5 leaves tab 3's entry (key `scan_3`)
untouched. -/
theorem C9_invalidate_frame_witness :
    (clearTabCache 5
        (storeScanResult 3 "u" ⟨some 50, none, none⟩ 0 initState)).store
        (scanKey 3)
      = (storeScanResult 3 "u" ⟨some 50, none, none⟩ 0 initState).store
        (scanKey 3) :=
  (C9_invalidate_frame 5 _).2.1 (scanKey 3) (by decide)

end ScamDetector
